import Mathlib

/-!
Verification development for the Senas gesture-recognition backend.

The definitions below are a shallow embedding of the Python services
`app/services/ml_service.py` (class `MLService`) and
`app/services/learning_service.py` (class `LearningService`).
Python floats are modelled as real numbers, Python exceptions as
`Except String`, and Python dicts as association lists.
-/

namespace Senas

/-- A hand landmark with numeric x/y/z coordinates (the dict entries
`lm["x"]`, `lm["y"]`, `lm["z"]` in the source). -/
structure Landmark where
  x : ℝ
  y : ℝ
  z : ℝ

instance : Inhabited Landmark := ⟨⟨0, 0, 0⟩⟩

/-- Euclidean distance between two landmarks: `np.sqrt` of the sum of the
squared coordinate differences, as computed inline in
`_extract_features_fixed` and `_is_valid_hand_pose`. -/
noncomputable def dist3 (a b : Landmark) : ℝ :=
  Real.sqrt ((a.x - b.x) ^ 2 + (a.y - b.y) ^ 2 + (a.z - b.z) ^ 2)

/-- The list `finger_tips = [4, 8, 12, 16, 20]` in `_extract_features_fixed`. -/
def fingerTips : List ℕ := [4, 8, 12, 16, 20]

/-- The list `finger_bases = [3, 6, 10, 14, 18]` in `_extract_features_fixed`. -/
def fingerBases : List ℕ := [3, 6, 10, 14, 18]

/-- The list `finger_chains` in `_extract_features_fixed`. -/
def fingerChains : List (List ℕ) :=
  [[1, 2, 3, 4], [5, 6, 7, 8], [9, 10, 11, 12], [13, 14, 15, 16], [17, 18, 19, 20]]

/-- The first block of `_extract_features_fixed`: for every landmark,
its coordinates relative to the wrist (`coords[0]`), flattened in
x, y, z order (63 values for 21 landmarks). -/
noncomputable def relCoords (l : List Landmark) : List ℝ :=
  let wrist := l.headI
  l.flatMap fun c => [c.x - wrist.x, c.y - wrist.y, c.z - wrist.z]

/-- Second block of `_extract_features_fixed`: distance from each finger
tip to its base (5 values). Indexing is total via `getD`; the caller
guarantees 21 landmarks, so every index is in range. -/
noncomputable def tipBaseDists (l : List Landmark) : List ℝ :=
  (fingerTips.zip fingerBases).map fun tb => dist3 (l.getD tb.1 default) (l.getD tb.2 default)

/-- Third block of `_extract_features_fixed`: distance from each finger
tip to the palm center `coords[0]` (5 values). -/
noncomputable def tipWristDists (l : List Landmark) : List ℝ :=
  fingerTips.map fun t => dist3 (l.getD t default) (l.getD 0 default)

/-- Euclidean norm of a 3-vector (`np.linalg.norm`). -/
noncomputable def norm3 (x y z : ℝ) : ℝ :=
  Real.sqrt (x ^ 2 + y ^ 2 + z ^ 2)

/-- The joint angle at landmark `j` between landmarks `i` and `k`:
`arccos` of the clipped normalized dot product, with the `1e-6`
regularizer in the denominator, as in `_extract_features_fixed`. -/
noncomputable def angleAt (l : List Landmark) (i j k : ℕ) : ℝ :=
  let p1 := l.getD i default
  let p2 := l.getD j default
  let p3 := l.getD k default
  let v1x := p1.x - p2.x
  let v1y := p1.y - p2.y
  let v1z := p1.z - p2.z
  let v2x := p3.x - p2.x
  let v2y := p3.y - p2.y
  let v2z := p3.z - p2.z
  let cosAngle := (v1x * v2x + v1y * v2y + v1z * v2z) /
    (norm3 v1x v1y v1z * norm3 v2x v2y v2z + 1e-6)
  Real.arccos (min 1 (max (-1) cosAngle))

/-- Fourth block of `_extract_features_fixed`: for each finger chain, the
two interior joint angles (10 values for the 5 chains). -/
noncomputable def jointAngles (l : List Landmark) : List ℝ :=
  fingerChains.flatMap fun chain =>
    (List.range (chain.length - 2)).map fun i =>
      angleAt l (chain.getD i 0) (chain.getD (i + 1) 0) (chain.getD (i + 2) 0)

/-- The raw feature list built by `_extract_features_fixed` before
padding/truncation: 63 wrist-relative coordinates, 5 tip-to-base
distances, 5 tip-to-wrist distances, 10 joint angles. -/
noncomputable def rawFeatures (l : List Landmark) : List ℝ :=
  relCoords l ++ tipBaseDists l ++ tipWristDists l ++ jointAngles l

/-- The tail of `_extract_features_fixed`:
`while len(features) < 78: features.append(0.0)` then `features[:78]`. -/
def padTruncate (fs : List ℝ) : List ℝ :=
  (fs ++ List.replicate (78 - fs.length) 0).take 78

/-- Function `MLService._extract_features_fixed`: raises `ValueError` unless the
landmark list has exactly 21 entries, otherwise returns the padded and
truncated feature list. -/
noncomputable def extractFeaturesFixed (l : List Landmark) : Except String (List ℝ) :=
  if l.length = 21 then
    Except.ok (padTruncate (rawFeatures l))
  else
    Except.error ("Expected 21 landmarks, got " ++ toString l.length)

/-- Translating every landmark by the same 3-D offset. -/
def translate (o : Landmark) (l : List Landmark) : List Landmark :=
  l.map fun lm => Landmark.mk (lm.x + o.x) (lm.y + o.y) (lm.z + o.z)

theorem relCoords_flat_length (cs : List Landmark) (w : Landmark) :
    (cs.flatMap fun c => [c.x - w.x, c.y - w.y, c.z - w.z]).length = 3 * cs.length := by
  induction cs with
  | nil => rfl
  | cons a t ih => simp [ih]; ring

theorem relCoords_length (l : List Landmark) : (relCoords l).length = 3 * l.length := by
  simp only [relCoords]
  exact relCoords_flat_length l l.headI

theorem tipBaseDists_length (l : List Landmark) : (tipBaseDists l).length = 5 := by
  simp [tipBaseDists, fingerTips, fingerBases]

theorem tipWristDists_length (l : List Landmark) : (tipWristDists l).length = 5 := by
  simp [tipWristDists, fingerTips]

theorem jointAngles_length (l : List Landmark) : (jointAngles l).length = 10 := by
  simp [jointAngles, fingerChains]

theorem rawFeatures_length (l : List Landmark) (h : l.length = 21) :
    (rawFeatures l).length = 83 := by
  simp [rawFeatures, relCoords_length, tipBaseDists_length, tipWristDists_length,
    jointAngles_length, h]

theorem padTruncate_length_of_83 (fs : List ℝ) (h : fs.length = 83) :
    (padTruncate fs).length = 78 := by
  simp [padTruncate, h]

/-- C2: for every 21-point landmark set, the feature extractor succeeds,
returns exactly 78 floats (the 83 raw values right-truncated to 78),
and re-invoking it on the same input yields the same output. -/
theorem extract_features_length_and_det (l : List Landmark) (h : l.length = 21) :
    ∃ fs, extractFeaturesFixed l = Except.ok fs ∧ fs.length = 78 ∧
      extractFeaturesFixed l = extractFeaturesFixed l := by
  refine ⟨padTruncate (rawFeatures l), ?_, ?_, rfl⟩
  · simp [extractFeaturesFixed, h]
  · exact padTruncate_length_of_83 _ (rawFeatures_length l h)

/-- A concrete 21-point landmark set: wrist at the origin, every finger
tip at distance 0.5 from the wrist. -/
def sampleHand : List Landmark :=
  [⟨0, 0, 0⟩, ⟨0.1, 0, 0⟩, ⟨0.2, 0, 0⟩, ⟨0.25, 0.1, 0⟩, ⟨0.3, 0.4, 0⟩,
   ⟨0.1, 0.1, 0⟩, ⟨0.15, 0.2, 0⟩, ⟨0.2, 0.3, 0⟩, ⟨0.3, 0.4, 0⟩,
   ⟨0.05, 0.1, 0⟩, ⟨0.1, 0.2, 0⟩, ⟨0.2, 0.3, 0⟩, ⟨0.3, 0.4, 0⟩,
   ⟨0, 0.1, 0⟩, ⟨0.05, 0.2, 0⟩, ⟨0.15, 0.3, 0⟩, ⟨0.3, 0.4, 0⟩,
   ⟨0, 0.05, 0⟩, ⟨0.05, 0.15, 0⟩, ⟨0.15, 0.25, 0⟩, ⟨0.3, 0.4, 0⟩]

theorem sampleHand_length : sampleHand.length = 21 := rfl

/-- Witness for C2 at the concrete landmark set `sampleHand`. -/
theorem extract_features_length_and_det_witness :
    sampleHand.length = 21 ∧
      ∃ fs, extractFeaturesFixed sampleHand = Except.ok fs ∧ fs.length = 78 ∧
        extractFeaturesFixed sampleHand = extractFeaturesFixed sampleHand :=
  ⟨rfl, extract_features_length_and_det sampleHand rfl⟩

theorem relCoords_flat_translate (cs : List Landmark) (w o : Landmark) :
    ((cs.map fun lm => Landmark.mk (lm.x + o.x) (lm.y + o.y) (lm.z + o.z)).flatMap
        fun c => [c.x - (w.x + o.x), c.y - (w.y + o.y), c.z - (w.z + o.z)]) =
      cs.flatMap fun c => [c.x - w.x, c.y - w.y, c.z - w.z] := by
  induction cs with
  | nil => rfl
  | cons a t ih =>
    simp only [List.map_cons, List.flatMap_cons, ih]
    congr 1
    simp only [List.cons.injEq, and_true]
    refine ⟨by ring, by ring, by ring⟩

theorem relCoords_translate (l : List Landmark) (o : Landmark) :
    relCoords (translate o l) = relCoords l := by
  cases l with
  | nil => rfl
  | cons a t =>
    simp only [relCoords, translate, List.map_cons, List.headI]
    exact relCoords_flat_translate (a :: t) a o

theorem take63_extract (l : List Landmark) (h : l.length = 21) :
    (padTruncate (rawFeatures l)).take 63 = relCoords l := by
  have hraw : (rawFeatures l).length = 83 := rawFeatures_length l h
  have hrel : (relCoords l).length = 63 := by rw [relCoords_length, h]
  simp only [padTruncate, hraw]
  norm_num
  rw [List.take_take]
  norm_num
  simp only [rawFeatures, List.append_assoc]
  rw [List.take_append_of_le_length (le_of_eq hrel.symm)]
  exact List.take_of_length_le (le_of_eq hrel)

/-- C5: translating all 21 points by the same offset leaves the first 63
entries of the extracted feature vector (the wrist-relative coordinates)
unchanged. -/
theorem translation_invariance_first63 (l : List Landmark) (o : Landmark)
    (h : l.length = 21) :
    (extractFeaturesFixed (translate o l)).map (fun fs => fs.take 63) =
      (extractFeaturesFixed l).map (fun fs => fs.take 63) := by
  have hlen : (translate o l).length = 21 := by simp [translate, h]
  simp only [extractFeaturesFixed, hlen, h, if_pos, Except.map]
  congr 1
  rw [take63_extract _ hlen, take63_extract _ h, relCoords_translate]

/-- Witness for C5 at `sampleHand` with offset (1, -2, 0.5). -/
theorem translation_invariance_first63_witness :
    sampleHand.length = 21 ∧
      (extractFeaturesFixed (translate ⟨1, -2, 0.5⟩ sampleHand)).map (fun fs => fs.take 63) =
        (extractFeaturesFixed sampleHand).map (fun fs => fs.take 63) :=
  ⟨rfl, translation_invariance_first63 sampleHand ⟨1, -2, 0.5⟩ rfl⟩

/-- The value `np.max` of a probability vector (total on the empty list, which the
source never hits because the classifier output is nonempty). -/
noncomputable def maxProb : List ℝ → ℝ
  | [] => 0
  | [p] => p
  | p :: q :: rest => max p (maxProb (q :: rest))

/-- The value `np.argmax`: index of the first occurrence of the maximum. -/
noncomputable def argmaxIdx : List ℝ → ℕ
  | [] => 0
  | [_] => 0
  | p :: q :: rest => if maxProb (q :: rest) ≤ p then 0 else argmaxIdx (q :: rest) + 1

/-- Function `MLService._calculate_entropy_threshold`: adds `1e-10` to every
component, then returns `-Σ pᵢ · ln pᵢ` over the shifted components. -/
noncomputable def calcEntropyThreshold (ps : List ℝ) : ℝ :=
  -((ps.map fun p => (p + 1e-10) * Real.log (p + 1e-10)).sum)

/-- The probability dict built in `predict`: class names zipped with the
probability vector, with the sentinel label `"NO_GESTURE"` removed. -/
def filteredProbs (classNames : List String) (ps : List ℝ) : List (String × ℝ) :=
  (classNames.zip ps).filter fun lp => lp.1 ≠ "NO_GESTURE"

/-- The dict returned by `MLService.predict`. -/
structure PredictResult where
  prediction : String
  confidence : ℝ
  probabilities : List (String × ℝ)

/-- The rejection test in `MLService.predict`:
`max_confidence < 0.5 or entropy > 2.5 or predicted_label == "NO_GESTURE"`. -/
def rejectCond (classNames : List String) (ps : List ℝ) : Prop :=
  maxProb ps < 0.5 ∨ calcEntropyThreshold ps > 2.5 ∨
    classNames.getD (argmaxIdx ps) "" = "NO_GESTURE"

/-- The fixed rejection result: label `"No se detecta seña clara"`,
confidence equal to the raw maximum probability, and the unnormalized
non-sentinel probability mapping. -/
noncomputable def rejectResult (classNames : List String) (ps : List ℝ) : PredictResult :=
  ⟨"No se detecta seña clara", maxProb ps, filteredProbs classNames ps⟩

/-- The accepting result: arg-max label, its raw probability as
confidence, and the non-sentinel probabilities renormalized when their
total is positive. -/
noncomputable def acceptResult (classNames : List String) (ps : List ℝ) : PredictResult :=
  let filtered := filteredProbs classNames ps
  let total := (filtered.map Prod.snd).sum
  ⟨classNames.getD (argmaxIdx ps) "", ps.getD (argmaxIdx ps) 0,
    if 0 < total then filtered.map (fun lp => (lp.1, lp.2 / total)) else filtered⟩

open Classical in
/-- The decision tail of `MLService.predict`, applied to the classifier's
probability vector. -/
noncomputable def predictFrom (classNames : List String) (ps : List ℝ) : PredictResult :=
  if rejectCond classNames ps then rejectResult classNames ps
  else acceptResult classNames ps

/-- Number of finger tips whose distance to the wrist lies strictly
between 0.01 and 1.0, from `MLService._is_valid_hand_pose`. -/
noncomputable def validTipCount (l : List Landmark) : ℕ :=
  (fingerTips.map fun t =>
    if 0.01 < dist3 (l.getD t default) (l.getD 0 default) ∧
        dist3 (l.getD t default) (l.getD 0 default) < 1 then 1 else 0).sum

/-- Function `MLService._is_valid_hand_pose`: the initial coordinate-range loop has
no effect (its body is a bare `continue`), so the check accepts exactly
when at least two finger tips are at distance strictly between 0.01 and
1.0 from the wrist. -/
def isValidHandPose (l : List Landmark) : Prop := 2 ≤ validTipCount l

open Classical in
/-- The landmark-dependent part of `MLService.predict` for a loaded
artifact. `net` abstracts the composition of the preprocessing transform
and the trained classifier, mapping the 78 extracted features to the
per-class probability vector. Python exceptions become `Except.error`
with the wrapped message of the outer handler. -/
noncomputable def predictExc (classNames : List String) (net : List ℝ → List ℝ)
    (landmarks : List Landmark) : Except String PredictResult :=
  if landmarks.isEmpty then
    Except.error "Error making prediction: No landmarks provided"
  else if landmarks.length = 21 then
    if isValidHandPose landmarks then
      match extractFeaturesFixed landmarks with
      | Except.ok fs => Except.ok (predictFrom classNames (net fs))
      | Except.error e =>
          Except.error ("Error making prediction: Feature extraction failed: " ++ e)
    else
      Except.ok ⟨"Mano no detectada correctamente", 0, []⟩
  else
    Except.error ("Error making prediction: Expected 21 landmarks, got " ++
      toString landmarks.length)

/-- The probability vector the classifier produces inside `predict`. -/
noncomputable def netProbs (net : List ℝ → List ℝ) (landmarks : List Landmark) : List ℝ :=
  net ((extractFeaturesFixed landmarks).toOption.getD [])

theorem argmaxIdx_lt_length (ps : List ℝ) (h : ps ≠ []) : argmaxIdx ps < ps.length := by
  induction ps with
  | nil => simp at h
  | cons p rest ih =>
    cases rest with
    | nil => simp [argmaxIdx]
    | cons q t =>
      simp only [argmaxIdx]
      split
      · simp
      · have := ih (by simp)
        simp only [List.length_cons] at this ⊢
        omega

theorem argmax_label_mem (classNames : List String) (ps : List ℝ)
    (hlen : classNames.length = ps.length) (hne : ps ≠ []) :
    classNames.getD (argmaxIdx ps) "" ∈ classNames := by
  have hlt : argmaxIdx ps < classNames.length := by
    rw [hlen]; exact argmaxIdx_lt_length ps hne
  rw [List.getD_eq_getElem classNames "" hlt]
  exact List.getElem_mem hlt

/-- C1: for a loaded model and a 21-point landmark set passing the pose
pre-check, `predict` returns the fixed rejection result if and only if
the probability vector has maximum < 0.5, entropy above 2.5, or sentinel
arg-max; otherwise it returns the accepting result built from the
arg-max label and its raw probability. -/
theorem predict_rejection_iff (classNames : List String) (net : List ℝ → List ℝ)
    (l : List Landmark) (h21 : l.length = 21) (hpose : isValidHandPose l)
    (hlen : classNames.length = (netProbs net l).length)
    (hne : netProbs net l ≠ [])
    (hsent : "No se detecta seña clara" ∉ classNames) :
    (predictExc classNames net l = Except.ok (rejectResult classNames (netProbs net l)) ↔
      rejectCond classNames (netProbs net l)) ∧
    (¬ rejectCond classNames (netProbs net l) →
      predictExc classNames net l = Except.ok (acceptResult classNames (netProbs net l))) := by
  have hnonempty : ¬ l.isEmpty := by
    cases l with
    | nil => simp at h21
    | cons a t => simp
  have hex : extractFeaturesFixed l = Except.ok (padTruncate (rawFeatures l)) := by
    simp [extractFeaturesFixed, h21]
  have hnp : netProbs net l = net (padTruncate (rawFeatures l)) := by
    unfold netProbs
    rw [hex]
    rfl
  have hpredict : predictExc classNames net l =
      Except.ok (predictFrom classNames (netProbs net l)) := by
    unfold predictExc
    rw [if_neg hnonempty, if_pos h21, if_pos hpose, hex, hnp]
  by_cases hc : rejectCond classNames (netProbs net l)
  · constructor
    · constructor
      · intro _; exact hc
      · intro _
        rw [hpredict]
        simp [predictFrom, hc]
    · intro hnc; exact absurd hc hnc
  · constructor
    · constructor
      · intro hEq
        exfalso
        rw [hpredict] at hEq
        simp only [predictFrom, hc, if_false] at hEq
        have haccept : acceptResult classNames (netProbs net l) =
            rejectResult classNames (netProbs net l) := by
          simpa using hEq
        have hpredeq : classNames.getD (argmaxIdx (netProbs net l)) "" =
            "No se detecta seña clara" := congrArg PredictResult.prediction haccept
        exact hsent (hpredeq ▸ argmax_label_mem classNames (netProbs net l) hlen hne)
      · intro h; exact absurd h hc
    · intro _
      rw [hpredict]
      simp [predictFrom, hc]

theorem sampleHand_tip_dist : dist3 ⟨0.3, 0.4, 0⟩ ⟨0, 0, 0⟩ = 0.5 := by
  unfold dist3
  rw [show ((0.3 : ℝ) - 0) ^ 2 + ((0.4 : ℝ) - 0) ^ 2 + ((0 : ℝ) - 0) ^ 2 = 0.5 ^ 2 by
    norm_num]
  exact Real.sqrt_sq (by norm_num)

theorem sampleHand_pose : isValidHandPose sampleHand := by
  unfold isValidHandPose validTipCount
  have h4 : sampleHand.getD 4 default = (⟨0.3, 0.4, 0⟩ : Landmark) := rfl
  have h8 : sampleHand.getD 8 default = (⟨0.3, 0.4, 0⟩ : Landmark) := rfl
  have h12 : sampleHand.getD 12 default = (⟨0.3, 0.4, 0⟩ : Landmark) := rfl
  have h16 : sampleHand.getD 16 default = (⟨0.3, 0.4, 0⟩ : Landmark) := rfl
  have h20 : sampleHand.getD 20 default = (⟨0.3, 0.4, 0⟩ : Landmark) := rfl
  have h0 : sampleHand.getD 0 default = (⟨0, 0, 0⟩ : Landmark) := rfl
  simp only [fingerTips, List.map_cons, List.map_nil, List.sum_cons, List.sum_nil,
    h4, h8, h12, h16, h20, h0, sampleHand_tip_dist]
  norm_num

/-- Witness for C1: three classes, a constant classifier emitting
probabilities (0.7, 0.2, 0.1), and the concrete landmark set
`sampleHand`. -/
theorem predict_rejection_iff_witness :
    (predictExc ["A", "B", "NO_GESTURE"] (fun _ => [0.7, 0.2, 0.1]) sampleHand =
        Except.ok (rejectResult ["A", "B", "NO_GESTURE"]
          (netProbs (fun _ => [0.7, 0.2, 0.1]) sampleHand)) ↔
      rejectCond ["A", "B", "NO_GESTURE"]
        (netProbs (fun _ => [0.7, 0.2, 0.1]) sampleHand)) ∧
    (¬ rejectCond ["A", "B", "NO_GESTURE"]
        (netProbs (fun _ => [0.7, 0.2, 0.1]) sampleHand) →
      predictExc ["A", "B", "NO_GESTURE"] (fun _ => [0.7, 0.2, 0.1]) sampleHand =
        Except.ok (acceptResult ["A", "B", "NO_GESTURE"]
          (netProbs (fun _ => [0.7, 0.2, 0.1]) sampleHand))) :=
  predict_rejection_iff ["A", "B", "NO_GESTURE"] (fun _ => [0.7, 0.2, 0.1]) sampleHand
    rfl sampleHand_pose rfl (by simp [netProbs]) (by decide)

theorem entropy_replicate (K : ℕ) (x : ℝ) :
    calcEntropyThreshold (List.replicate K x) =
      -(K * ((x + 1e-10) * Real.log (x + 1e-10))) := by
  unfold calcEntropyThreshold
  rw [List.map_replicate, List.sum_replicate, nsmul_eq_mul]

theorem exp_two_gt_six : (6 : ℝ) < Real.exp 2 := by
  have h1 : (2.7182818283 : ℝ) < Real.exp 1 := Real.exp_one_gt_d9
  have h2 : Real.exp 2 = Real.exp 1 ^ 2 := by
    rw [← Real.exp_nat_mul]; norm_num
  nlinarith [Real.exp_pos 1]

theorem exp_five_lt : Real.exp 5 < 149 := by
  have h1 : Real.exp 1 < 2.7182818286 := Real.exp_one_lt_d9
  have h2 : Real.exp 5 = Real.exp 1 ^ 5 := by
    rw [← Real.exp_nat_mul]; norm_num
  have h3 : Real.exp 1 ^ 5 < (2.7182818286 : ℝ) ^ 5 :=
    pow_lt_pow_left h1 (le_of_lt (Real.exp_pos 1)) (by norm_num)
  have h4 : ((2.7182818286 : ℝ)) ^ 5 < 149 := by norm_num
  linarith [h2 ▸ lt_trans h3 h4]

/-- Counterexample to C3: the uniform probability vector over 6 classes
(each component 1/6) has entropy about ln 6 ≈ 1.79, which does not
exceed 2.5, so the entropy-based rejection does not fire at K = 6. -/
theorem uniform_entropy_six_not_rejected :
    6 ≤ 6 ∧ ¬ (calcEntropyThreshold (List.replicate 6 ((1 : ℝ) / 6)) > 2.5) := by
  refine ⟨le_refl 6, ?_⟩
  rw [entropy_replicate, not_lt]
  have hp_pos : (0 : ℝ) < 1 / 6 + 1e-10 := by norm_num
  have hexp : Real.exp (-2) < 1 / 6 + 1e-10 := by
    rw [Real.exp_neg]
    have h6 : (Real.exp 2)⁻¹ < (6 : ℝ)⁻¹ :=
      inv_lt_inv_of_lt (by norm_num) exp_two_gt_six
    rw [show (6 : ℝ)⁻¹ = 1 / 6 by norm_num] at h6
    linarith
  have hlog : (-2 : ℝ) < Real.log (1 / 6 + 1e-10) := by
    calc (-2 : ℝ) = Real.log (Real.exp (-2)) := (Real.log_exp _).symm
    _ < Real.log (1 / 6 + 1e-10) := Real.log_lt_log (Real.exp_pos _) hexp
  push_cast
  nlinarith [mul_lt_mul_of_pos_left hlog hp_pos]

/-- C3 amended: the entropy of the perfectly uniform probability vector
of length K exceeds 2.5 exactly when K is large enough — K ≥ 13 (not
K ≥ 6 as claimed: ln 6 ≈ 1.79 < 2.5; the threshold corresponds to
e^2.5 ≈ 12.18 classes). The confidence-based part of the claim is
unchanged: max < 0.5 fires the rejection condition regardless of
entropy. -/
theorem uniform_entropy_rejection (K : ℕ) (hK : 13 ≤ K) (classNames : List String)
    (ps : List ℝ) (hmax : maxProb ps < 0.5) :
    calcEntropyThreshold (List.replicate K ((K : ℝ)⁻¹)) > 2.5 ∧
      rejectCond classNames ps := by
  refine ⟨?_, Or.inl hmax⟩
  rw [entropy_replicate]
  have hK0 : (0 : ℝ) < (K : ℝ) := by
    have : (0 : ℕ) < K := by omega
    exact_mod_cast this
  have hp_pos : (0 : ℝ) < (K : ℝ)⁻¹ + 1e-10 := by positivity
  have hp_le : (K : ℝ)⁻¹ + 1e-10 ≤ 1 / 13 + 1e-10 := by
    have h13 : (13 : ℝ) ≤ (K : ℝ) := by exact_mod_cast hK
    have : (K : ℝ)⁻¹ ≤ (13 : ℝ)⁻¹ := inv_le_inv_of_le (by norm_num) h13
    rw [show ((13 : ℝ))⁻¹ = 1 / 13 by norm_num] at this
    linarith
  have hq_pos : (0 : ℝ) < 1 / 13 + 1e-10 := by norm_num
  have hsq : Real.exp (5 / 2) ^ 2 = Real.exp 5 := by
    rw [← Real.exp_nat_mul]; norm_num
  have h149 : (149 : ℝ) ≤ ((1 / 13 + 1e-10 : ℝ)⁻¹) ^ 2 := by norm_num
  have hlt : Real.exp (5 / 2) < (1 / 13 + 1e-10 : ℝ)⁻¹ := by
    have h1 : Real.exp (5 / 2) ^ 2 < ((1 / 13 + 1e-10 : ℝ)⁻¹) ^ 2 := by
      rw [hsq]; linarith [exp_five_lt]
    exact lt_of_pow_lt_pow_left 2 (le_of_lt (by positivity)) h1
  have hqe : (1 / 13 + 1e-10 : ℝ) < Real.exp (-(5 / 2)) := by
    rw [Real.exp_neg]
    have := inv_lt_inv_of_lt (Real.exp_pos (5 / 2)) hlt
    rwa [inv_inv] at this
  have hlog : Real.log ((K : ℝ)⁻¹ + 1e-10) < -(5 / 2) := by
    have hple : (K : ℝ)⁻¹ + 1e-10 < Real.exp (-(5 / 2)) := lt_of_le_of_lt hp_le hqe
    calc Real.log ((K : ℝ)⁻¹ + 1e-10) < Real.log (Real.exp (-(5 / 2))) :=
      Real.log_lt_log hp_pos hple
    _ = -(5 / 2) := Real.log_exp _
  have hKp : (1 : ℝ) ≤ (K : ℝ) * ((K : ℝ)⁻¹ + 1e-10) := by
    rw [mul_add, mul_inv_cancel₀ (ne_of_gt hK0)]
    have : (0 : ℝ) ≤ (K : ℝ) * 1e-10 := by positivity
    linarith
  have hneglog : (5 : ℝ) / 2 < -Real.log ((K : ℝ)⁻¹ + 1e-10) := by linarith
  have hmono : 1 * (-Real.log ((K : ℝ)⁻¹ + 1e-10)) ≤
      ((K : ℝ) * ((K : ℝ)⁻¹ + 1e-10)) * (-Real.log ((K : ℝ)⁻¹ + 1e-10)) :=
    mul_le_mul_of_nonneg_right hKp (by linarith)
  nlinarith [hmono, hneglog]

/-- Witness for C3 (amended) at K = 13 and the probability vector
(0.4, 0.3). -/
theorem uniform_entropy_rejection_witness :
    13 ≤ 13 ∧ maxProb [0.4, 0.3] < 0.5 ∧
      (calcEntropyThreshold (List.replicate 13 ((13 : ℝ) : ℝ)⁻¹) > 2.5 ∧
        rejectCond ["A"] [0.4, 0.3]) := by
  have hmax : maxProb [0.4, 0.3] < 0.5 := by
    simp only [maxProb]
    exact max_lt (by norm_num) (by norm_num)
  exact ⟨le_refl 13, hmax, uniform_entropy_rejection 13 (le_refl 13) ["A"] [0.4, 0.3] hmax⟩

/-- Outcomes of the artifact-persistence steps in `MLService.train_model`,
listed in source order: the model file, the scaler pickle, the validator
pickle, the label-encoder pickle, the label-encoder JSON, and the
metrics JSON. -/
structure PersistSteps where
  saveModel : Except String Unit
  saveScaler : Except String Unit
  saveValidator : Except String Unit
  saveEncoderPkl : Except String Unit
  saveEncoderJson : Except String Unit
  saveMetrics : Except String Unit

/-- The persistence tail of `MLService.train_model`. The `try/except`
blocks around the scaler, validator, pickled-encoder and metrics saves
only print the error and continue; the model-file save and the
label-encoder-JSON save re-raise, and the outer handler wraps the
exception as "Error training model: ...". On success the model is
registered in the in-memory caches (`self.models[model_id] = model`),
modelled by the `true` payload. -/
def runTrainPersist (s : PersistSteps) : Except String Bool :=
  match s.saveModel with
  | Except.error e => Except.error ("Error training model: " ++ e)
  | Except.ok _ =>
    let _ := s.saveScaler
    let _ := s.saveValidator
    let _ := s.saveEncoderPkl
    match s.saveEncoderJson with
    | Except.error e => Except.error ("Error training model: " ++ e)
    | Except.ok _ =>
      let _ := s.saveMetrics
      Except.ok true

/-- Counterexample to C4: a failure while persisting the standardization
scaler is swallowed (the `except` block only prints), so training
completes normally and the artifact is registered as ready. -/
theorem scaler_save_failure_swallowed :
    (PersistSteps.mk (Except.ok ()) (Except.error "disk full") (Except.ok ())
        (Except.ok ()) (Except.ok ()) (Except.ok ())).saveScaler =
      Except.error "disk full" ∧
    runTrainPersist (PersistSteps.mk (Except.ok ()) (Except.error "disk full")
        (Except.ok ()) (Except.ok ()) (Except.ok ()) (Except.ok ())) =
      Except.ok true :=
  ⟨rfl, rfl⟩

/-- C4 amended: `train_model` raises a training error exactly when saving
the classifier model file fails, or when it succeeds but saving the
label-encoder JSON fails; failures persisting the scaler, the gesture
validator, the pickled label encoder, or the metrics are logged and
swallowed. When no error is raised the run completes with the artifact
registered as ready. -/
theorem train_persist_error_iff (s : PersistSteps) :
    ((∃ e, runTrainPersist s = Except.error e) ↔
      ((∃ e, s.saveModel = Except.error e) ∨
        (s.saveModel = Except.ok () ∧ ∃ e, s.saveEncoderJson = Except.error e))) ∧
    (runTrainPersist s = Except.ok true ∨ ∃ e, runTrainPersist s = Except.error e) := by
  obtain ⟨m, sc, v, pk, js, mt⟩ := s
  cases m with
  | error e => simp [runTrainPersist]
  | ok u =>
    cases u
    cases js with
    | error e => simp [runTrainPersist]
    | ok u' => cases u'; simp [runTrainPersist]

/-- Per-label statistics nested under `labelProgress` in
`LearningService.update_progress`. -/
structure LabelStats where
  attempts : ℕ
  successes : ℕ
  averageConfidence : ℚ

/-- The per-(model, session) statistics dict initialized lazily in
`LearningService.update_progress`. The last-activity timestamp is
wall-clock time and is not modelled. -/
structure SessionStats where
  totalAttempts : ℕ
  correctAttempts : ℕ
  totalConfidence : ℚ
  totalSimilarity : ℚ
  currentStreak : ℕ
  bestStreak : ℕ
  timeSpent : ℚ
  labelProgress : List (String × LabelStats)

/-- The freshly initialized per-key statistics. -/
def initStats : SessionStats := ⟨0, 0, 0, 0, 0, 0, 0, []⟩

/-- One `update_progress` request body (`progress_data`). -/
structure ProgressData where
  isCorrect : Bool
  confidence : ℚ
  similarity : ℚ
  sessionTime : ℚ
  targetLabel : Option String

/-- Assignment into a Python dict modelled as an association list with
unique keys: replace the value under the key, or append a new entry. -/
def assocSet {α : Type} : List (String × α) → String → α → List (String × α)
  | [], k, v => [(k, v)]
  | (k', v') :: rest, k, v =>
    if k' = k then (k, v) :: rest else (k', v') :: assocSet rest k v

/-- The `labelProgress` branch of `update_progress`: lazily initialize
the per-label entry, bump attempts/successes, and update the running
average confidence incrementally. -/
def updateLabelProgress (lp : List (String × LabelStats)) (lbl : String)
    (p : ProgressData) : List (String × LabelStats) :=
  let cur := (lp.lookup lbl).getD ⟨0, 0, 0⟩
  let attempts := cur.attempts + 1
  let successes := cur.successes + (if p.isCorrect then 1 else 0)
  let avg := (cur.averageConfidence * ((attempts : ℚ) - 1) + p.confidence) / (attempts : ℚ)
  assocSet lp lbl ⟨attempts, successes, avg⟩

/-- The statistics update `LearningService.update_progress` performs on
the entry stored under one (model, user) key. -/
def updateStats (stats : SessionStats) (p : ProgressData) : SessionStats :=
  let s1 :=
    if p.isCorrect then
      { stats with
        correctAttempts := stats.correctAttempts + 1
        currentStreak := stats.currentStreak + 1
        bestStreak := max stats.bestStreak (stats.currentStreak + 1) }
    else
      { stats with currentStreak := 0 }
  let s2 := { s1 with
    totalAttempts := s1.totalAttempts + 1
    totalConfidence := s1.totalConfidence + p.confidence
    totalSimilarity := s1.totalSimilarity + p.similarity
    timeSpent := s1.timeSpent + p.sessionTime }
  match p.targetLabel with
  | none => s2
  | some lbl => { s2 with labelProgress := updateLabelProgress s2.labelProgress lbl p }

theorem updateStats_currentStreak (s : SessionStats) (p : ProgressData) :
    (updateStats s p).currentStreak = if p.isCorrect then s.currentStreak + 1 else 0 := by
  cases hc : p.isCorrect <;> cases htl : p.targetLabel <;>
    simp [updateStats, hc, htl]

theorem updateStats_bestStreak (s : SessionStats) (p : ProgressData) :
    (updateStats s p).bestStreak =
      if p.isCorrect then max s.bestStreak (s.currentStreak + 1) else s.bestStreak := by
  cases hc : p.isCorrect <;> cases htl : p.targetLabel <;>
    simp [updateStats, hc, htl]

theorem foldl_allCorrect (ps : List ProgressData) :
    ∀ s : SessionStats, (∀ p ∈ ps, p.isCorrect = true) →
      s.currentStreak ≤ s.bestStreak →
      (ps.foldl updateStats s).currentStreak = s.currentStreak + ps.length ∧
        (ps.foldl updateStats s).bestStreak = max s.bestStreak (s.currentStreak + ps.length) := by
  induction ps with
  | nil =>
    intro s _ hle
    constructor
    · simp
    · simp [Nat.max_eq_left hle]
  | cons p t ih =>
    intro s hall hle
    have hc : p.isCorrect = true := hall p (by simp)
    have h1c := updateStats_currentStreak s p
    have h1b := updateStats_bestStreak s p
    rw [hc, if_pos rfl] at h1c h1b
    rw [List.foldl_cons]
    obtain ⟨ic, ib⟩ := ih (updateStats s p)
      (fun x hx => hall x (by simp [hx]))
      (by rw [h1c, h1b]; omega)
    constructor
    · rw [ic, h1c, List.length_cons]; omega
    · rw [ib, h1b, h1c, List.length_cons]; omega

/-- C7: starting from fresh statistics, after N updates with isCorrect
true followed by one update with isCorrect false, currentStreak is 0 and
bestStreak is N. -/
theorem streak_reset_after_n_correct (n : ℕ) (ps : List ProgressData)
    (q : ProgressData) (hlen : ps.length = n)
    (hall : ∀ p ∈ ps, p.isCorrect = true) (hq : q.isCorrect = false) :
    (updateStats (ps.foldl updateStats initStats) q).currentStreak = 0 ∧
      (updateStats (ps.foldl updateStats initStats) q).bestStreak = n := by
  obtain ⟨hc, hb⟩ := foldl_allCorrect ps initStats hall (by simp [initStats])
  rw [updateStats_currentStreak, updateStats_bestStreak, hq]
  simp only [Bool.false_eq_true, if_false]
  refine ⟨by trivial, ?_⟩
  rw [hb, hlen]
  simp [initStats]

/-- Witness for C7 at N = 3: three correct attempts, then one incorrect. -/
theorem streak_reset_after_n_correct_witness :
    (List.replicate 3 (ProgressData.mk true (4 / 5) (1 / 2) 1 none)).length = 3 ∧
    (updateStats
        ((List.replicate 3 (ProgressData.mk true (4 / 5) (1 / 2) 1 none)).foldl
          updateStats initStats)
        (ProgressData.mk false (1 / 2) (1 / 2) 1 none)).currentStreak = 0 ∧
      (updateStats
          ((List.replicate 3 (ProgressData.mk true (4 / 5) (1 / 2) 1 none)).foldl
            updateStats initStats)
          (ProgressData.mk false (1 / 2) (1 / 2) 1 none)).bestStreak = 3 :=
  ⟨rfl, streak_reset_after_n_correct 3 _ _ rfl
    (fun p hp => by rw [List.eq_of_mem_replicate hp]) rfl⟩

theorem updateStats_streak_le (s : SessionStats) (p : ProgressData)
    (h : s.currentStreak ≤ s.bestStreak) :
    (updateStats s p).currentStreak ≤ (updateStats s p).bestStreak ∧
      s.bestStreak ≤ (updateStats s p).bestStreak := by
  rw [updateStats_currentStreak, updateStats_bestStreak]
  cases p.isCorrect <;> simp <;> omega

theorem foldl_streak_le (ps : List ProgressData) :
    ∀ s : SessionStats, s.currentStreak ≤ s.bestStreak →
      (ps.foldl updateStats s).currentStreak ≤ (ps.foldl updateStats s).bestStreak := by
  induction ps with
  | nil => intro s h; exact h
  | cons a t ih =>
    intro s h
    rw [List.foldl_cons]
    exact ih _ (updateStats_streak_le s a h).1

/-- C9: along every update sequence from fresh statistics, bestStreak
bounds currentStreak (both are naturals, hence nonnegative), and a
further update never decreases bestStreak. -/
theorem streak_invariant (ps : List ProgressData) (p : ProgressData) :
    (ps.foldl updateStats initStats).currentStreak ≤
        (ps.foldl updateStats initStats).bestStreak ∧
      (ps.foldl updateStats initStats).bestStreak ≤
        (updateStats (ps.foldl updateStats initStats) p).bestStreak ∧
      (updateStats (ps.foldl updateStats initStats) p).currentStreak ≤
        (updateStats (ps.foldl updateStats initStats) p).bestStreak := by
  have hfold := foldl_streak_le ps initStats (by simp [initStats])
  obtain ⟨h1, h2⟩ := updateStats_streak_le (ps.foldl updateStats initStats) p hfold
  exact ⟨hfold, h2, h1⟩

/-- The mean per-point Euclidean distance over the 21 landmark pairs in
`LearningService._compute_landmark_similarity`. -/
noncomputable def avgLandmarkDistance (l1 l2 : List Landmark) : ℝ :=
  (((List.range 21).map fun i => dist3 (l1.getD i default) (l2.getD i default)).sum) / 21

open Classical in
/-- Function `LearningService._compute_landmark_similarity`: 0.0 unless both lists
have 21 points, otherwise `min(1.0, max(0.0, 1.0 - avg_distance * 10))`. -/
noncomputable def computeLandmarkSimilarity (l1 l2 : List Landmark) : ℝ :=
  if l1.length = 21 ∧ l2.length = 21 then
    min 1 (max 0 (1 - avgLandmarkDistance l1 l2 * 10))
  else 0

theorem dist3_self (a : Landmark) : dist3 a a = 0 := by
  unfold dist3
  rw [sub_self, sub_self, sub_self]
  norm_num

theorem avgLandmarkDistance_self (l : List Landmark) : avgLandmarkDistance l l = 0 := by
  unfold avgLandmarkDistance
  rw [List.sum_eq_zero, zero_div]
  intro x hx
  obtain ⟨i, _, rfl⟩ := List.mem_map.mp hx
  exact dist3_self _

/-- C8: comparing a 21-point landmark set against itself gives exactly 1;
for every pair of 21-point sets the similarity equals
clamp(1 − avg_distance·10, 0, 1), hence always lies in [0, 1]. -/
theorem landmark_similarity_self_and_clamp (l1 l2 : List Landmark)
    (h1 : l1.length = 21) (h2 : l2.length = 21) :
    computeLandmarkSimilarity l1 l1 = 1 ∧
      computeLandmarkSimilarity l1 l2 =
        min 1 (max 0 (1 - avgLandmarkDistance l1 l2 * 10)) ∧
      0 ≤ computeLandmarkSimilarity l1 l2 ∧ computeLandmarkSimilarity l1 l2 ≤ 1 := by
  have hpair : computeLandmarkSimilarity l1 l2 =
      min 1 (max 0 (1 - avgLandmarkDistance l1 l2 * 10)) := by
    unfold computeLandmarkSimilarity
    rw [if_pos ⟨h1, h2⟩]
  refine ⟨?_, hpair, ?_, ?_⟩
  · unfold computeLandmarkSimilarity
    rw [if_pos ⟨h1, h1⟩, avgLandmarkDistance_self]
    norm_num
  · rw [hpair]
    exact le_min (by norm_num) (le_max_left 0 _)
  · rw [hpair]
    exact min_le_left 1 _

/-- Witness for C8 at the concrete landmark set `sampleHand` compared
with itself. -/
theorem landmark_similarity_self_and_clamp_witness :
    sampleHand.length = 21 ∧
      (computeLandmarkSimilarity sampleHand sampleHand = 1 ∧
        computeLandmarkSimilarity sampleHand sampleHand =
          min 1 (max 0 (1 - avgLandmarkDistance sampleHand sampleHand * 10)) ∧
        0 ≤ computeLandmarkSimilarity sampleHand sampleHand ∧
          computeLandmarkSimilarity sampleHand sampleHand ≤ 1) :=
  ⟨rfl, landmark_similarity_self_and_clamp sampleHand sampleHand rfl rfl⟩

/-- The dict returned by `LearningService.compare_with_target`. The
timestamp field is wall-clock time and is not modelled. -/
structure ComparisonResult where
  prediction : String
  confidence : ℝ
  isMatch : Bool
  feedback : String
  similarity : ℝ
  detectionQuality : String

open Classical in
/-- Function `LearningService._evaluate_match`: false on a label mismatch,
otherwise `confidence >= 0.75`. -/
noncomputable def evaluateMatch (prediction targetLabel : String)
    (confidence : ℝ) : Bool :=
  if prediction ≠ targetLabel then false
  else decide (0.75 ≤ confidence)

open Classical in
/-- Function `LearningService._generate_advanced_feedback`. -/
noncomputable def generateAdvancedFeedback (prediction targetLabel : String)
    (confidence : ℝ) (isMatch : Bool) : String :=
  if isMatch then
    if 0.95 ≤ confidence then "¡Perfecto! Seña ejecutada a la perfección"
    else if 0.85 ≤ confidence then "¡Excelente! Muy buena ejecución de la seña"
    else if 0.75 ≤ confidence then "¡Muy bien! Seña correcta, sigue practicando"
    else "¡Correcto! Puedes mejorar la precisión"
  else
    if confidence < 0.3 then
      "Seña no detectada claramente. Verifica que tu mano esté bien visible"
    else if prediction = "No se detecta seña clara" ∨
        prediction = "Mano no detectada correctamente" then
      "Asegúrate de mantener la mano estable dentro del marco de la cámara"
    else if prediction = "Gesto no válido" then
      "Intenta hacer un gesto más claro y definido"
    else
      "Detecté \x27" ++ prediction ++ "\x27. Intenta realizar la seña \x27" ++
        targetLabel ++ "\x27 más claramente"

/-- The running maximum of the 2-D wrist-to-tip distances in
`LearningService._assess_detection_quality`. -/
noncomputable def handSpan (landmarks : List Landmark) : ℝ :=
  (fingerTips.map fun t =>
    Real.sqrt (((landmarks.getD t default).x - (landmarks.getD 0 default).x) ^ 2 +
      ((landmarks.getD t default).y - (landmarks.getD 0 default).y) ^ 2)).foldl max 0

open Classical in
/-- Function `LearningService._assess_detection_quality`. -/
noncomputable def assessDetectionQuality (landmarks : List Landmark)
    (confidence : ℝ) : String :=
  if landmarks.length ≠ 21 then "poor"
  else if handSpan landmarks < 0.05 then "poor"
  else if 0.4 < handSpan landmarks then "poor"
  else if 0.8 ≤ confidence then "excellent"
  else if 0.6 ≤ confidence then "good"
  else "fair"

open Classical in
/-- Function `LearningService.compare_with_target`: the entire body runs inside a
`try`; a prediction failure reaches the `except` handler, which returns
the fixed error result instead of propagating. The similarity score is
computed against database reference samples and is abstracted as the
`similarity` argument. -/
noncomputable def compareWithTarget (classNames : List String)
    (net : List ℝ → List ℝ) (landmarks : List Landmark) (targetLabel : String)
    (similarity : ℝ) : ComparisonResult :=
  match predictExc classNames net landmarks with
  | Except.error e =>
      ⟨"Error", 0, false, "Error en la comparación: " ++ e, 0, "error"⟩
  | Except.ok r =>
      let isMatch := evaluateMatch r.prediction targetLabel r.confidence
      ⟨r.prediction, r.confidence, isMatch,
        generateAdvancedFeedback r.prediction targetLabel r.confidence isMatch,
        similarity, assessDetectionQuality landmarks r.confidence⟩

/-- C6: whenever the underlying prediction step fails — in particular for
a landmark list whose length is not 21, or any failure loading the
model artifact — `compare_with_target` returns the fixed error result
(prediction "Error", confidence 0, isMatch false, similarity 0,
detection quality "error") instead of propagating the exception. -/
theorem compare_with_target_error_result (classNames : List String)
    (net : List ℝ → List ℝ) (landmarks : List Landmark) (targetLabel : String)
    (similarity : ℝ) (e : String)
    (h : predictExc classNames net landmarks = Except.error e) :
    compareWithTarget classNames net landmarks targetLabel similarity =
      ⟨"Error", 0, false, "Error en la comparación: " ++ e, 0, "error"⟩ := by
  unfold compareWithTarget
  rw [h]

/-- Witness for C6: a landmark list of length 20 makes the prediction
step raise, and the comparison still returns the error result. -/
theorem compare_with_target_error_result_witness :
    predictExc ["A"] (fun _ => [1]) (List.replicate 20 (⟨0, 0, 0⟩ : Landmark)) =
        Except.error "Error making prediction: Expected 21 landmarks, got 20" ∧
      compareWithTarget ["A"] (fun _ => [1])
          (List.replicate 20 (⟨0, 0, 0⟩ : Landmark)) "A" 0 =
        ⟨"Error", 0, false,
          "Error en la comparación: Error making prediction: Expected 21 landmarks, got 20",
          0, "error"⟩ :=
  ⟨rfl, compare_with_target_error_result ["A"] (fun _ => [1])
    (List.replicate 20 (⟨0, 0, 0⟩ : Landmark)) "A" 0
    "Error making prediction: Expected 21 landmarks, got 20" rfl⟩

/-- The in-memory state of `LearningService`: the per-key session
statistics and the comparison history cache. -/
structure LearningState where
  sessionStats : List (String × SessionStats)
  comparisonCache : List (String × List ComparisonResult)

/-- The composed dict key `f"{model_id}_{user_id}"`. -/
def sessionKey (modelId userId : String) : String := modelId ++ "_" ++ userId

/-- Function `LearningService.reset_user_progress`: deletes the session-statistics
entry and the comparison-cache entry for the key when present, and
returns `True` unconditionally. -/
def resetUserProgress (st : LearningState) (modelId userId : String) :
    Bool × LearningState :=
  let key := sessionKey modelId userId
  (true,
    { sessionStats := st.sessionStats.filter fun kv => kv.1 ≠ key
      comparisonCache := st.comparisonCache.filter fun kv => kv.1 ≠ key })

theorem lookup_filter_self {α : Type} (l : List (String × α)) (k : String) :
    (l.filter fun kv => kv.1 ≠ k).lookup k = none := by
  induction l with
  | nil => rfl
  | cons a t ih =>
    rw [List.filter_cons]
    by_cases h : a.1 = k
    · have hf : (decide ¬a.1 = k) = false := by simp [h]
      rw [hf]
      simp only [Bool.false_eq_true, if_false]
      exact ih
    · have hne : (decide ¬a.1 = k) = true := by simp [h]
      rw [hne]
      simp only [if_true, cond_true]
      cases a with
      | mk a1 a2 =>
        simp only [List.lookup]
        have : (k == a1) = false := by
          simp only [beq_eq_false_iff_ne, ne_eq]
          intro hk
          exact h (by simp_all)
        rw [this]
        exact ih

/-- C10: `reset_user_progress` returns True for every state and every
(model, user) pair — including pairs with no stored data — and afterwards
neither session statistics nor comparison history remain under the key. -/
theorem reset_user_progress_clears (st : LearningState) (modelId userId : String) :
    (resetUserProgress st modelId userId).1 = true ∧
      (resetUserProgress st modelId userId).2.sessionStats.lookup
          (sessionKey modelId userId) = none ∧
      (resetUserProgress st modelId userId).2.comparisonCache.lookup
          (sessionKey modelId userId) = none :=
  ⟨rfl, lookup_filter_self st.sessionStats _, lookup_filter_self st.comparisonCache _⟩

end Senas
